import Mathlib

/-!
Shallow embedding of `src/lib/models/tree-options.model.ts` from the
beezeelinx/ngx-tree repository: the `TREE_ACTIONS` handler table, the
`defaultActionMapping`, and the `TreeOptions` class with its getters
(`childrenField`, `displayField`, `idField`, `isExpandedField`,
`isHiddenField`, `levelPadding`, `useVirtualScroll`, `dropSlotHeight`,
`enableDragAndDrop`), the `nodeHeight`, `allowDrop`, `allowDrag` and
`nodeClass` methods, and the constructor call
`defaultsDeep(\x7b\x7d, options.actionMapping, defaultActionMapping)`.

JavaScript conventions used by the embedding:
- a possibly-undefined value of type T is `Option T` (`none` = `undefined`);
- the `x || d` fallback on strings treats the empty string as falsy and on
  numbers treats 0 as falsy, so it is modelled by `jsOrString` / `jsOrInt`;
- an action-mapping slot is `ActionEntry`: `undefined` (property absent or
  `undefined`), `null` (explicit `null`), or `handler h`;
- lodash `defaultsDeep` fills exactly the slots that are `undefined` in the
  earlier arguments, recursing through the `mouse` / `keys` objects, and
  keeps an explicit `null`; per slot that is `mergeEntry`.
-/

namespace NgxTree

/-- Raw data item wrapped by a node; the only field the options model reads
is the truthiness of `data.virtual` (the virtual-scroll sentinel flag). -/
structure RawData where
  virtual : Bool
  deriving DecidableEq

/-- The slice of `TreeNode` consumed by `tree-options.model.ts`: `data`
(for `data.virtual`), `index` (drop-slot padding) and `hasChildren`
(guard of the `TOGGLE_EXPANDED` action). -/
structure TreeNode where
  data : RawData
  index : Nat
  hasChildren : Bool
  deriving DecidableEq

/-- Drop location passed to `allowDrop`: `\x7bparent, index\x7d`. -/
structure DropTo where
  parent : TreeNode
  index : Nat

/-- Calls a built-in handler makes on the `TreeModel` / `TreeNode` it
receives; each constructor names the method invoked in the body of the
corresponding `TREE_ACTIONS` arrow function. A `toggleActivated` call with
no argument passes `undefined`, which is falsy, so it is recorded as
`multi = false`. -/
inductive TreeCall where
  | toggleActivated (multi : Bool)
  | setActive (value : Bool)
  | focus
  | toggleExpanded
  | expand
  | collapse
  | focusDrillDown
  | focusDrillUp
  | focusNextNode
  | focusPreviousNode
  | moveNode
  | custom (id : Nat)
  deriving DecidableEq

/-- The members of the `TREE_ACTIONS` table, plus `custom` for an arbitrary
user-supplied `IActionHandler`. -/
inductive Handler where
  | toggleSelected
  | toggleSelectedMulti
  | select
  | deselect
  | focusHandler
  | toggleExpandedHandler
  | expandHandler
  | collapseHandler
  | drillDown
  | drillUp
  | nextNode
  | previousNode
  | moveNodeHandler
  | custom (id : Nat)
  deriving DecidableEq

/-- Call trace of one `TREE_ACTIONS` handler, read off the arrow-function
bodies at lines 12-33 of the source. The node argument is `Option TreeNode`
(`none` = JS `null`/`undefined`); `TOGGLE_SELECTED` and
`TOGGLE_SELECTED_MULTI` guard with `node && ...` and so make no call on a
missing node, the other node-targeted handlers dereference the node and the
result is `none` (a thrown TypeError) when it is missing.
`TOGGLE_EXPANDED` is `node.hasChildren && node.toggleExpanded()`.
A `custom` handler has an unknown body, recorded as one opaque call. -/
def Handler.invoke : Handler → Option TreeNode → Option (List TreeCall)
  | .toggleSelected, n =>
      some (match n with | none => [] | some _ => [.toggleActivated false])
  | .toggleSelectedMulti, n =>
      some (match n with | none => [] | some _ => [.toggleActivated true])
  | .select, n => n.map fun _ => [.setActive true]
  | .deselect, n => n.map fun _ => [.setActive false]
  | .focusHandler, n => n.map fun _ => [.focus]
  | .toggleExpandedHandler, n =>
      n.map fun nd => if nd.hasChildren then [.toggleExpanded] else []
  | .expandHandler, n => n.map fun _ => [.expand]
  | .collapseHandler, n => n.map fun _ => [.collapse]
  | .drillDown, _ => some [.focusDrillDown]
  | .drillUp, _ => some [.focusDrillUp]
  | .nextNode, _ => some [.focusNextNode]
  | .previousNode, _ => some [.focusPreviousNode]
  | .moveNodeHandler, _ => some [.moveNode]
  | .custom i, _ => some [.custom i]

/-- Call trace of a handler, with a thrown invocation giving no calls. -/
def Handler.callsOn (h : Handler) (n : Option TreeNode) : List TreeCall :=
  (h.invoke n).getD []

/-- Replay a call trace against any state semantics `step`. -/
def runCalls {σ : Type} (step : σ → TreeCall → σ) (s : σ) (calls : List TreeCall) : σ :=
  calls.foldl step s

/-- One slot of an action mapping: absent/`undefined`, explicit `null`, or
a handler function. -/
inductive ActionEntry where
  | undefined
  | null
  | handler (h : Handler)
  deriving DecidableEq

/-- The `mouse` object of an `IActionMapping`: all eleven gesture names of
the interface, an absent property read as `ActionEntry.undefined`. -/
structure MouseMap where
  click : ActionEntry
  dblClick : ActionEntry
  contextMenu : ActionEntry
  expanderClick : ActionEntry
  dragStart : ActionEntry
  drag : ActionEntry
  dragEnd : ActionEntry
  dragOver : ActionEntry
  dragLeave : ActionEntry
  dragEnter : ActionEntry
  drop : ActionEntry
  deriving DecidableEq

/-- The eleven mouse-gesture names of the action-mapping surface. -/
inductive MouseSlot where
  | click
  | dblClick
  | contextMenu
  | expanderClick
  | dragStart
  | drag
  | dragEnd
  | dragOver
  | dragLeave
  | dragEnter
  | drop
  deriving DecidableEq

/-- Read a `MouseMap` at a named slot. -/
def MouseMap.entryOf (m : MouseMap) : MouseSlot → ActionEntry
  | .click => m.click
  | .dblClick => m.dblClick
  | .contextMenu => m.contextMenu
  | .expanderClick => m.expanderClick
  | .dragStart => m.dragStart
  | .drag => m.drag
  | .dragEnd => m.dragEnd
  | .dragOver => m.dragOver
  | .dragLeave => m.dragLeave
  | .dragEnter => m.dragEnter
  | .drop => m.drop

/-- A mouse object with every property absent. -/
def undefMouseMap : MouseMap :=
  ⟨.undefined, .undefined, .undefined, .undefined, .undefined, .undefined, .undefined, .undefined, .undefined, .undefined, .undefined⟩

/-- User-facing `IActionMapping`: both the `mouse` and the `keys` objects
are optional properties. A `keys` object is read as a total function from
key code to slot, key codes it does not mention giving `undefined`. -/
structure IActionMapping where
  mouse : Option MouseMap
  keys : Option (Nat → ActionEntry)

/-- Action mapping after resolution: both objects present. -/
structure ActionMappingResolved where
  mouse : MouseMap
  keys : Nat → ActionEntry

/-- Modelled from the spec: the `NUMBER_KEYS` constant table is imported
from `src/lib/constants/keys`, which is not among the sources; the spec
only says the mapping is keyed "by numeric key code" with entries for
right, left, down, up, space and enter, so the standard DOM key codes are
used. -/
def NUMBER_KEYS.RIGHT : Nat := 39

/-- Modelled from the spec: standard DOM key code for the left arrow. -/
def NUMBER_KEYS.LEFT : Nat := 37

/-- Modelled from the spec: standard DOM key code for the down arrow. -/
def NUMBER_KEYS.DOWN : Nat := 40

/-- Modelled from the spec: standard DOM key code for the up arrow. -/
def NUMBER_KEYS.UP : Nat := 38

/-- Modelled from the spec: standard DOM key code for space. -/
def NUMBER_KEYS.SPACE : Nat := 32

/-- Modelled from the spec: standard DOM key code for enter. -/
def NUMBER_KEYS.ENTER : Nat := 13

/-- The `defaultActionMapping` object of the source, lines 35-51: `mouse`
defines `click`, `dblClick`, `contextMenu`, `expanderClick` and `drop`
only (the drag-family properties are absent, hence `undefined`), and `keys`
maps the six `NUMBER_KEYS` codes. -/
def defaultActionMapping : ActionMappingResolved where
  mouse :=
    { click := .handler .toggleSelected
      dblClick := .null
      contextMenu := .null
      expanderClick := .handler .toggleExpandedHandler
      dragStart := .undefined
      drag := .undefined
      dragEnd := .undefined
      dragOver := .undefined
      dragLeave := .undefined
      dragEnter := .undefined
      drop := .handler .moveNodeHandler }
  keys := fun k =>
    if k = NUMBER_KEYS.RIGHT then .handler .drillDown
    else if k = NUMBER_KEYS.LEFT then .handler .drillUp
    else if k = NUMBER_KEYS.DOWN then .handler .nextNode
    else if k = NUMBER_KEYS.UP then .handler .previousNode
    else if k = NUMBER_KEYS.SPACE then .handler .toggleSelected
    else if k = NUMBER_KEYS.ENTER then .handler .toggleSelected
    else .undefined

/-- Per-slot rule of lodash `defaultsDeep`: a destination slot that is
`undefined` is filled from the source; a handler or an explicit `null`
stays. -/
def mergeEntry (obj src : ActionEntry) : ActionEntry :=
  match obj with
  | .undefined => src
  | v => v

/-- The `mouse` object the user supplied, an absent `actionMapping` or
`mouse` property reading as all-`undefined`. -/
def userMouseOf (u : IActionMapping) : MouseMap :=
  u.mouse.getD undefMouseMap

/-- The `keys` object the user supplied, an absent property reading as
all-`undefined`. -/
def userKeysOf (u : IActionMapping) : Nat → ActionEntry :=
  u.keys.getD fun _ => .undefined

/-- The constructor expression
`defaultsDeep(\x7b\x7d, this.options.actionMapping, defaultActionMapping)`:
slot by slot through `mouse` and `keys`, the first non-`undefined` of the
user value and the default wins. -/
def defaultsDeepActionMapping (userAM : Option IActionMapping) : ActionMappingResolved :=
  let um : MouseMap := match userAM with
    | none => undefMouseMap
    | some u => userMouseOf u
  let uk : Nat → ActionEntry := match userAM with
    | none => fun _ => .undefined
    | some u => userKeysOf u
  { mouse :=
      { click := mergeEntry um.click defaultActionMapping.mouse.click
        dblClick := mergeEntry um.dblClick defaultActionMapping.mouse.dblClick
        contextMenu := mergeEntry um.contextMenu defaultActionMapping.mouse.contextMenu
        expanderClick := mergeEntry um.expanderClick defaultActionMapping.mouse.expanderClick
        dragStart := mergeEntry um.dragStart defaultActionMapping.mouse.dragStart
        drag := mergeEntry um.drag defaultActionMapping.mouse.drag
        dragEnd := mergeEntry um.dragEnd defaultActionMapping.mouse.dragEnd
        dragOver := mergeEntry um.dragOver defaultActionMapping.mouse.dragOver
        dragLeave := mergeEntry um.dragLeave defaultActionMapping.mouse.dragLeave
        dragEnter := mergeEntry um.dragEnter defaultActionMapping.mouse.dragEnter
        drop := mergeEntry um.drop defaultActionMapping.mouse.drop }
    keys := fun k => mergeEntry (uk k) (defaultActionMapping.keys k) }

/-- The `nodeHeight` option: `number | INodeHeightFn`. -/
inductive NodeHeightOption where
  | const (n : Int)
  | fn (f : TreeNode → Int)

/-- The `allowDrag` option: `boolean | IAllowDragFn`. -/
inductive AllowDragOption where
  | bool (b : Bool)
  | fn (f : TreeNode → Bool)

/-- The `allowDrop` option: `boolean | IAllowDropFn`; element and `$event`
are `any`-typed opaque payloads, modelled as `Nat`. -/
inductive AllowDropOption where
  | bool (b : Bool)
  | fn (f : Nat → DropTo → Nat → Bool)

/-- The user-facing `ITreeOptions` object: every recognized property is
optional (`none` = left unset). -/
structure ITreeOptions where
  childrenField : Option String
  displayField : Option String
  idField : Option String
  isExpandedField : Option String
  isHiddenField : Option String
  actionMapping : Option IActionMapping
  levelPadding : Option Int
  useVirtualScroll : Option Bool
  nodeHeight : Option NodeHeightOption
  enableDragAndDrop : Option Bool
  allowDrag : Option AllowDragOption
  allowDrop : Option AllowDropOption
  dropSlotHeight : Option Int
  getChildren : Option (TreeNode → Nat)
  nodeClass : Option (TreeNode → String)

/-- The empty configuration object `\x7b\x7d` (the constructor default). -/
def emptyOptions : ITreeOptions :=
  ⟨none, none, none, none, none, none, none, none, none, none, none, none, none, none, none⟩

/-- JavaScript `v || d` for a possibly-undefined string: `undefined` and
the empty string are falsy. -/
def jsOrString (v : Option String) (d : String) : String :=
  match v with
  | none => d
  | some s => if s = "" then d else s

/-- JavaScript `v || d` for a possibly-undefined number: `undefined` and
0 are falsy. -/
def jsOrInt (v : Option Int) (d : Int) : Int :=
  match v with
  | none => d
  | some n => if n = 0 then d else n

/-- The `TreeOptions` class: the kept constructor argument plus the
`actionMapping` field computed in the constructor. -/
structure TreeOptions where
  options : ITreeOptions
  actionMapping : ActionMappingResolved

/-- The `TreeOptions` constructor. -/
def TreeOptions.new (options : ITreeOptions) : TreeOptions :=
  ⟨options, defaultsDeepActionMapping options.actionMapping⟩

/-- Getter `childrenField`: `this.options.childrenField || 'children'`. -/
def TreeOptions.childrenField (t : TreeOptions) : String :=
  jsOrString t.options.childrenField "children"

/-- Getter `displayField`: `this.options.displayField || 'name'`. -/
def TreeOptions.displayField (t : TreeOptions) : String :=
  jsOrString t.options.displayField "name"

/-- Getter `idField`: `this.options.idField || 'id'`. -/
def TreeOptions.idField (t : TreeOptions) : String :=
  jsOrString t.options.idField "id"

/-- Getter `isExpandedField`: `this.options.isExpandedField || 'isExpanded'`. -/
def TreeOptions.isExpandedField (t : TreeOptions) : String :=
  jsOrString t.options.isExpandedField "isExpanded"

/-- Getter `isHiddenField`: `this.options.isHiddenField || 'isHidden'`. -/
def TreeOptions.isHiddenField (t : TreeOptions) : String :=
  jsOrString t.options.isHiddenField "isHidden"

/-- Getter `getChildren`: returns the option verbatim. -/
def TreeOptions.getChildren (t : TreeOptions) : Option (TreeNode → Nat) :=
  t.options.getChildren

/-- Getter `levelPadding`: `this.options.levelPadding || 0`. -/
def TreeOptions.levelPadding (t : TreeOptions) : Int :=
  jsOrInt t.options.levelPadding 0

/-- Getter `useVirtualScroll`: returns the option verbatim, so `undefined`
(`none`) when the user left it unset. -/
def TreeOptions.useVirtualScroll (t : TreeOptions) : Option Bool :=
  t.options.useVirtualScroll

/-- Getter `dropSlotHeight`: `this.options.dropSlotHeight || 2`. -/
def TreeOptions.dropSlotHeight (t : TreeOptions) : Int :=
  jsOrInt t.options.dropSlotHeight 2

/-- Getter `enableDragAndDrop`: returns the option verbatim, so
`undefined` (`none`) when the user left it unset. -/
def TreeOptions.enableDragAndDrop (t : TreeOptions) : Option Bool :=
  t.options.enableDragAndDrop

/-- Method `nodeClass`: `this.options.nodeClass ? this.options.nodeClass(node) : ''`. -/
def TreeOptions.nodeClass (t : TreeOptions) (node : TreeNode) : String :=
  match t.options.nodeClass with
  | some f => f node
  | none => ""

/-- Method `nodeHeight`, lines 123-136 of the source: 0 for a virtual
sentinel; otherwise `this.options.nodeHeight || 22` (the constant 0 is
falsy and becomes 22; a function is truthy and is then applied to the
node), plus 2 when `node.index === 0` and 1 otherwise. -/
def TreeOptions.nodeHeight (t : TreeOptions) (node : TreeNode) : Int :=
  if node.data.virtual then 0
  else
    let nh : Int := match t.options.nodeHeight with
      | none => 22
      | some (.const n) => if n = 0 then 22 else n
      | some (.fn f) => f node
    nh + (if node.index = 0 then 2 else 1)

/-- Method `allowDrop`, lines 138-144 of the source: a function option is
applied to `(element, to, $event)`; otherwise the option is returned
verbatim except that `undefined` becomes `true`. -/
def TreeOptions.allowDrop (t : TreeOptions) (element : Nat) (dest : DropTo) (ev : Nat) : Bool :=
  match t.options.allowDrop with
  | some (.fn f) => f element dest ev
  | some (.bool b) => b
  | none => true

/-- Method `allowDrag`, lines 146-152 of the source: a function option is
applied to the node; otherwise `this.options.allowDrag` is returned
verbatim, so `undefined` (`none`) when the user left it unset. -/
def TreeOptions.allowDrag (t : TreeOptions) (node : TreeNode) : Option Bool :=
  match t.options.allowDrag with
  | some (.fn f) => some (f node)
  | some (.bool b) => some b
  | none => none

/-- A sample partial user action mapping: overrides `click` with an
explicit `null`, `expanderClick` with a custom handler, and maps key code
13 to `null`; everything else is left unspecified. -/
def sampleUserAM : IActionMapping :=
  ⟨some { undefMouseMap with click := .null, expanderClick := .handler (.custom 7) },
   some fun k => if k = 13 then .null else .undefined⟩

/-- A sample non-virtual node at sibling position 0. -/
def nodeAt0 : TreeNode := ⟨⟨false⟩, 0, true⟩

/-- A sample non-virtual node at sibling position 3. -/
def nodeAt3 : TreeNode := ⟨⟨false⟩, 3, true⟩

/-- A sample virtual-sentinel node at sibling position 7. -/
def virtualNode : TreeNode := ⟨⟨true⟩, 7, true⟩

/-- A sample drop target. -/
def sampleDest : DropTo := ⟨nodeAt0, 1⟩

/-- Specification of `mergeEntry`, the per-slot `defaultsDeep` rule. -/
theorem mergeEntry_eq (a b : ActionEntry) :
    (a = ActionEntry.undefined → mergeEntry a b = b)
    ∧ (a ≠ ActionEntry.undefined → mergeEntry a b = a) := by
  cases a <;> simp [mergeEntry]

/-- C1 counterexample: on the empty configuration object, the resolved
`useVirtualScroll`, `enableDragAndDrop` and `allowDrag` are `undefined`
(`none`), not a defined default value, refuting the claim that every
resolved field yields a defined default when the user leaves it unset. -/
theorem unset_fields_undefined_cex :
    (TreeOptions.new emptyOptions).useVirtualScroll = none
    ∧ (TreeOptions.new emptyOptions).enableDragAndDrop = none
    ∧ (TreeOptions.new emptyOptions).allowDrag nodeAt0 = none :=
  ⟨rfl, rfl, rfl⟩

/-- C1 amended: options resolution is total (every getter is a total
function of the configuration); when the user leaves them unset, the
field-name and numeric getters and `allowDrop` yield defined defaults,
while `useVirtualScroll`, `enableDragAndDrop` and `allowDrag` yield
`undefined` (a falsy value, behaviorally the documented `false` default)
rather than a defined value. -/
theorem resolve_total_amended (o : ITreeOptions)
    (hc : o.childrenField = none) (hd : o.displayField = none)
    (hi : o.idField = none) (he : o.isExpandedField = none)
    (hh : o.isHiddenField = none) (hl : o.levelPadding = none)
    (hs : o.dropSlotHeight = none) (hp : o.allowDrop = none)
    (hv : o.useVirtualScroll = none) (hdd : o.enableDragAndDrop = none)
    (hdr : o.allowDrag = none) :
    (TreeOptions.new o).childrenField = "children"
    ∧ (TreeOptions.new o).displayField = "name"
    ∧ (TreeOptions.new o).idField = "id"
    ∧ (TreeOptions.new o).isExpandedField = "isExpanded"
    ∧ (TreeOptions.new o).isHiddenField = "isHidden"
    ∧ (TreeOptions.new o).levelPadding = 0
    ∧ (TreeOptions.new o).dropSlotHeight = 2
    ∧ (∀ e dst ev, (TreeOptions.new o).allowDrop e dst ev = true)
    ∧ (TreeOptions.new o).useVirtualScroll = none
    ∧ (TreeOptions.new o).enableDragAndDrop = none
    ∧ (∀ node, (TreeOptions.new o).allowDrag node = none) := by
  refine ⟨?_, ?_, ?_, ?_, ?_, ?_, ?_, fun e dst ev => ?_, ?_, ?_, fun node => ?_⟩ <;>
    simp [TreeOptions.new, TreeOptions.childrenField, TreeOptions.displayField,
      TreeOptions.idField, TreeOptions.isExpandedField, TreeOptions.isHiddenField,
      TreeOptions.levelPadding, TreeOptions.dropSlotHeight, TreeOptions.allowDrop,
      TreeOptions.useVirtualScroll, TreeOptions.enableDragAndDrop, TreeOptions.allowDrag,
      jsOrString, jsOrInt, hc, hd, hi, he, hh, hl, hs, hp, hv, hdd, hdr]

/-- C1 amended, witness at the empty configuration object. -/
theorem resolve_total_amended_witness :
    (TreeOptions.new emptyOptions).childrenField = "children"
    ∧ (TreeOptions.new emptyOptions).displayField = "name"
    ∧ (TreeOptions.new emptyOptions).idField = "id"
    ∧ (TreeOptions.new emptyOptions).isExpandedField = "isExpanded"
    ∧ (TreeOptions.new emptyOptions).isHiddenField = "isHidden"
    ∧ (TreeOptions.new emptyOptions).levelPadding = 0
    ∧ (TreeOptions.new emptyOptions).dropSlotHeight = 2
    ∧ (∀ e dst ev, (TreeOptions.new emptyOptions).allowDrop e dst ev = true)
    ∧ (TreeOptions.new emptyOptions).useVirtualScroll = none
    ∧ (TreeOptions.new emptyOptions).enableDragAndDrop = none
    ∧ (∀ node, (TreeOptions.new emptyOptions).allowDrag node = none) :=
  resolve_total_amended emptyOptions rfl rfl rfl rfl rfl rfl rfl rfl rfl rfl rfl

/-- C2: with the `nodeHeight` option set to the constant 20, a non-virtual
node at index 0 measures 22, a non-virtual node at index 3 measures 21,
and a virtual-sentinel node measures 0 regardless of index. -/
theorem nodeHeight_constant20 (o : ITreeOptions)
    (h : o.nodeHeight = some (NodeHeightOption.const 20)) (node : TreeNode) :
    (node.data.virtual = false → node.index = 0 → (TreeOptions.new o).nodeHeight node = 22)
    ∧ (node.data.virtual = false → node.index = 3 → (TreeOptions.new o).nodeHeight node = 21)
    ∧ (node.data.virtual = true → (TreeOptions.new o).nodeHeight node = 0) := by
  refine ⟨fun hv hi => ?_, fun hv hi => ?_, fun hv => ?_⟩
  · simp [TreeOptions.new, TreeOptions.nodeHeight, h, hv, hi]
  · simp [TreeOptions.new, TreeOptions.nodeHeight, h, hv, hi]
  · simp [TreeOptions.new, TreeOptions.nodeHeight, hv]

/-- C2 witness: concrete nodes at index 0, index 3 and a virtual node. -/
theorem nodeHeight_constant20_witness :
    (TreeOptions.new { emptyOptions with
        nodeHeight := some (NodeHeightOption.const 20) }).nodeHeight nodeAt0 = 22
    ∧ (TreeOptions.new { emptyOptions with
        nodeHeight := some (NodeHeightOption.const 20) }).nodeHeight nodeAt3 = 21
    ∧ (TreeOptions.new { emptyOptions with
        nodeHeight := some (NodeHeightOption.const 20) }).nodeHeight virtualNode = 0 :=
  ⟨(nodeHeight_constant20 { emptyOptions with
      nodeHeight := some (NodeHeightOption.const 20) } rfl nodeAt0).1 rfl rfl,
   (nodeHeight_constant20 { emptyOptions with
      nodeHeight := some (NodeHeightOption.const 20) } rfl nodeAt3).2.1 rfl rfl,
   (nodeHeight_constant20 { emptyOptions with
      nodeHeight := some (NodeHeightOption.const 20) } rfl virtualNode).2.2 rfl⟩

/-- C3: the action-mapping merge is deep and per entry — for every user
mapping, every mouse slot and every key code, a user-supplied handler or
explicit `null` wins verbatim, and an unspecified entry falls back to the
default mapping entry. -/
theorem actionMapping_deep_merge (u : IActionMapping) (s : MouseSlot) (k : Nat) :
    ((userMouseOf u).entryOf s = ActionEntry.undefined →
      (TreeOptions.new { emptyOptions with
        actionMapping := some u }).actionMapping.mouse.entryOf s
        = defaultActionMapping.mouse.entryOf s)
    ∧ ((userMouseOf u).entryOf s ≠ ActionEntry.undefined →
      (TreeOptions.new { emptyOptions with
        actionMapping := some u }).actionMapping.mouse.entryOf s
        = (userMouseOf u).entryOf s)
    ∧ (userKeysOf u k = ActionEntry.undefined →
      (TreeOptions.new { emptyOptions with
        actionMapping := some u }).actionMapping.keys k
        = defaultActionMapping.keys k)
    ∧ (userKeysOf u k ≠ ActionEntry.undefined →
      (TreeOptions.new { emptyOptions with
        actionMapping := some u }).actionMapping.keys k
        = userKeysOf u k) := by
  have hm : (TreeOptions.new { emptyOptions with
      actionMapping := some u }).actionMapping.mouse.entryOf s
      = mergeEntry ((userMouseOf u).entryOf s) (defaultActionMapping.mouse.entryOf s) := by
    cases s <;> rfl
  have hk : (TreeOptions.new { emptyOptions with
      actionMapping := some u }).actionMapping.keys k
      = mergeEntry (userKeysOf u k) (defaultActionMapping.keys k) := rfl
  exact ⟨fun h => hm.trans ((mergeEntry_eq _ _).1 h),
         fun h => hm.trans ((mergeEntry_eq _ _).2 h),
         fun h => hk.trans ((mergeEntry_eq _ _).1 h),
         fun h => hk.trans ((mergeEntry_eq _ _).2 h)⟩

/-- C3 witness: on `sampleUserAM`, the overridden `click` slot resolves to
the explicit `null`, the unspecified `dblClick` slot falls back to the
default, key code 13 resolves to the user `null`, and the unmapped key
code 40 falls back to the default entry. -/
theorem actionMapping_deep_merge_witness :
    (TreeOptions.new { emptyOptions with
        actionMapping := some sampleUserAM }).actionMapping.mouse.entryOf MouseSlot.click
      = ActionEntry.null
    ∧ (TreeOptions.new { emptyOptions with
        actionMapping := some sampleUserAM }).actionMapping.mouse.entryOf MouseSlot.dblClick
      = defaultActionMapping.mouse.entryOf MouseSlot.dblClick
    ∧ (TreeOptions.new { emptyOptions with
        actionMapping := some sampleUserAM }).actionMapping.keys 13
      = ActionEntry.null
    ∧ (TreeOptions.new { emptyOptions with
        actionMapping := some sampleUserAM }).actionMapping.keys 40
      = defaultActionMapping.keys 40 :=
  ⟨((actionMapping_deep_merge sampleUserAM MouseSlot.click 13).2.1 (by decide)).trans (by decide),
   (actionMapping_deep_merge sampleUserAM MouseSlot.dblClick 13).1 (by decide),
   ((actionMapping_deep_merge sampleUserAM MouseSlot.click 13).2.2.2 (by decide)).trans (by decide),
   (actionMapping_deep_merge sampleUserAM MouseSlot.click 40).2.2.1 (by decide)⟩

/-- C4 counterexample: after resolution with no user mapping, the
`dragStart` mouse slot is absent/`undefined`, refuting the claim that
every slot of the action-mapping surface is a handler or an explicit
`null`. -/
theorem resolved_dragStart_undefined_cex :
    (TreeOptions.new emptyOptions).actionMapping.mouse.entryOf MouseSlot.dragStart
      = ActionEntry.undefined := by decide

/-- C4 amended: after resolution with no user mapping, every slot the
default mapping defines — the mouse slots `click`, `dblClick`,
`contextMenu`, `expanderClick`, `drop` and the six default-mapped key
codes — is a handler or an explicit `null` (never `undefined`), while the
six drag-family mouse slots remain `undefined`. -/
theorem resolved_default_slots_amended :
    (TreeOptions.new emptyOptions).actionMapping.mouse.click ≠ ActionEntry.undefined
    ∧ (TreeOptions.new emptyOptions).actionMapping.mouse.dblClick ≠ ActionEntry.undefined
    ∧ (TreeOptions.new emptyOptions).actionMapping.mouse.contextMenu ≠ ActionEntry.undefined
    ∧ (TreeOptions.new emptyOptions).actionMapping.mouse.expanderClick ≠ ActionEntry.undefined
    ∧ (TreeOptions.new emptyOptions).actionMapping.mouse.drop ≠ ActionEntry.undefined
    ∧ (TreeOptions.new emptyOptions).actionMapping.keys NUMBER_KEYS.RIGHT ≠ ActionEntry.undefined
    ∧ (TreeOptions.new emptyOptions).actionMapping.keys NUMBER_KEYS.LEFT ≠ ActionEntry.undefined
    ∧ (TreeOptions.new emptyOptions).actionMapping.keys NUMBER_KEYS.DOWN ≠ ActionEntry.undefined
    ∧ (TreeOptions.new emptyOptions).actionMapping.keys NUMBER_KEYS.UP ≠ ActionEntry.undefined
    ∧ (TreeOptions.new emptyOptions).actionMapping.keys NUMBER_KEYS.SPACE ≠ ActionEntry.undefined
    ∧ (TreeOptions.new emptyOptions).actionMapping.keys NUMBER_KEYS.ENTER ≠ ActionEntry.undefined
    ∧ (TreeOptions.new emptyOptions).actionMapping.mouse.dragStart = ActionEntry.undefined
    ∧ (TreeOptions.new emptyOptions).actionMapping.mouse.drag = ActionEntry.undefined
    ∧ (TreeOptions.new emptyOptions).actionMapping.mouse.dragEnd = ActionEntry.undefined
    ∧ (TreeOptions.new emptyOptions).actionMapping.mouse.dragOver = ActionEntry.undefined
    ∧ (TreeOptions.new emptyOptions).actionMapping.mouse.dragLeave = ActionEntry.undefined
    ∧ (TreeOptions.new emptyOptions).actionMapping.mouse.dragEnter = ActionEntry.undefined := by
  decide

/-- C5: when the corresponding option is unset, the field-name getters
return the literals `children`, `name`, `id`, `isExpanded`, `isHidden`,
and `levelPadding` and `dropSlotHeight` return 0 and 2. -/
theorem field_getters_defaults (o : ITreeOptions)
    (hc : o.childrenField = none) (hd : o.displayField = none)
    (hi : o.idField = none) (he : o.isExpandedField = none)
    (hh : o.isHiddenField = none) (hl : o.levelPadding = none)
    (hs : o.dropSlotHeight = none) :
    (TreeOptions.new o).childrenField = "children"
    ∧ (TreeOptions.new o).displayField = "name"
    ∧ (TreeOptions.new o).idField = "id"
    ∧ (TreeOptions.new o).isExpandedField = "isExpanded"
    ∧ (TreeOptions.new o).isHiddenField = "isHidden"
    ∧ (TreeOptions.new o).levelPadding = 0
    ∧ (TreeOptions.new o).dropSlotHeight = 2 := by
  refine ⟨?_, ?_, ?_, ?_, ?_, ?_, ?_⟩ <;>
    simp [TreeOptions.new, TreeOptions.childrenField, TreeOptions.displayField,
      TreeOptions.idField, TreeOptions.isExpandedField, TreeOptions.isHiddenField,
      TreeOptions.levelPadding, TreeOptions.dropSlotHeight,
      jsOrString, jsOrInt, hc, hd, hi, he, hh, hl, hs]

/-- C5 witness at the empty configuration object. -/
theorem field_getters_defaults_witness :
    (TreeOptions.new emptyOptions).childrenField = "children"
    ∧ (TreeOptions.new emptyOptions).displayField = "name"
    ∧ (TreeOptions.new emptyOptions).idField = "id"
    ∧ (TreeOptions.new emptyOptions).isExpandedField = "isExpanded"
    ∧ (TreeOptions.new emptyOptions).isHiddenField = "isHidden"
    ∧ (TreeOptions.new emptyOptions).levelPadding = 0
    ∧ (TreeOptions.new emptyOptions).dropSlotHeight = 2 :=
  field_getters_defaults emptyOptions rfl rfl rfl rfl rfl rfl rfl

/-- C6: in the resolved default mapping, the `click` slot is the
single-select toggle (whose call trace on a present node is
`toggleActivated` with a falsy `multi`), and the down-arrow key code maps
to the handler whose call trace is `tree.focusNextNode()`, the move of
focus to the next visible node. -/
theorem default_mapping_click_down :
    (TreeOptions.new emptyOptions).actionMapping.mouse.click
      = ActionEntry.handler Handler.toggleSelected
    ∧ (TreeOptions.new emptyOptions).actionMapping.keys NUMBER_KEYS.DOWN
      = ActionEntry.handler Handler.nextNode
    ∧ (∀ node : TreeNode,
        Handler.toggleSelected.invoke (some node) = some [TreeCall.toggleActivated false])
    ∧ (∀ n : Option TreeNode,
        Handler.nextNode.invoke n = some [TreeCall.focusNextNode]) :=
  ⟨by decide, by decide, fun _ => rfl, fun _ => rfl⟩

/-- C6 witness at a concrete node. -/
theorem default_mapping_click_down_witness :
    Handler.toggleSelected.invoke (some nodeAt0) = some [TreeCall.toggleActivated false]
    ∧ Handler.nextNode.invoke none = some [TreeCall.focusNextNode] :=
  ⟨default_mapping_click_down.2.2.1 nodeAt0, default_mapping_click_down.2.2.2 none⟩

/-- C7: on a node with `hasChildren = false`, the built-in
`TOGGLE_EXPANDED` action makes no call at all (in particular never calls
`toggleExpanded`), so replaying its call trace against any state
semantics leaves the state unchanged. -/
theorem toggle_expanded_noop (node : TreeNode) (h : node.hasChildren = false) :
    Handler.toggleExpandedHandler.invoke (some node) = some []
    ∧ (∀ (σ : Type) (step : σ → TreeCall → σ) (s : σ),
        runCalls step s (Handler.toggleExpandedHandler.callsOn (some node)) = s) := by
  have hinv : Handler.toggleExpandedHandler.invoke (some node) = some [] := by
    simp [Handler.invoke, h]
  exact ⟨hinv, fun σ step s => by simp [runCalls, Handler.callsOn, hinv]⟩

/-- C7 witness: a concrete childless node and a concrete state semantics. -/
theorem toggle_expanded_noop_witness :
    Handler.toggleExpandedHandler.invoke (some ⟨⟨false⟩, 2, false⟩) = some []
    ∧ runCalls (fun (s : Nat) _ => s + 1) 5
        (Handler.toggleExpandedHandler.callsOn (some ⟨⟨false⟩, 2, false⟩)) = 5 :=
  ⟨(toggle_expanded_noop ⟨⟨false⟩, 2, false⟩ rfl).1,
   (toggle_expanded_noop ⟨⟨false⟩, 2, false⟩ rfl).2 Nat (fun s _ => s + 1) 5⟩

/-- C8: `allowDrop` returns `true` when the option is unset, returns a
boolean option verbatim (including `false`), and applies a function
option to `(element, to, $event)`. -/
theorem allowDrop_semantics (o : ITreeOptions) (element : Nat) (dest : DropTo) (ev : Nat) :
    (o.allowDrop = none → (TreeOptions.new o).allowDrop element dest ev = true)
    ∧ (∀ b : Bool, o.allowDrop = some (AllowDropOption.bool b) →
        (TreeOptions.new o).allowDrop element dest ev = b)
    ∧ (∀ f, o.allowDrop = some (AllowDropOption.fn f) →
        (TreeOptions.new o).allowDrop element dest ev = f element dest ev) := by
  refine ⟨fun h => ?_, fun b h => ?_, fun f h => ?_⟩ <;>
    simp [TreeOptions.new, TreeOptions.allowDrop, h]

/-- C8 witness: unset gives `true`, the boolean `false` is returned
verbatim, and a function option is applied to its three arguments. -/
theorem allowDrop_semantics_witness :
    (TreeOptions.new emptyOptions).allowDrop 1 sampleDest 2 = true
    ∧ (TreeOptions.new { emptyOptions with
        allowDrop := some (AllowDropOption.bool false) }).allowDrop 1 sampleDest 2 = false
    ∧ (TreeOptions.new { emptyOptions with
        allowDrop := some (AllowDropOption.fn fun e _ _ => e = 1) }).allowDrop 1 sampleDest 2
      = ((1 : Nat) = 1 : Bool) :=
  ⟨(allowDrop_semantics emptyOptions 1 sampleDest 2).1 rfl,
   (allowDrop_semantics { emptyOptions with
      allowDrop := some (AllowDropOption.bool false) } 1 sampleDest 2).2.1 false rfl,
   (allowDrop_semantics { emptyOptions with
      allowDrop := some (AllowDropOption.fn fun e _ _ => e = 1) } 1 sampleDest 2).2.2
      (fun e _ _ => e = 1) rfl⟩

/-- C9: an explicit user `dropSlotHeight` of 0 is falsy under the `|| 2`
fallback, so the resolved getter returns the default 2, not 0. -/
theorem dropSlotHeight_zero_default :
    (TreeOptions.new { emptyOptions with
      dropSlotHeight := some 0 }).dropSlotHeight = 2 := by decide

/-- C10: when the `nodeHeight` option is unset, the base height is the
constant 22, so a non-virtual node measures 24 at index 0 and 23 at every
other index. -/
theorem nodeHeight_default22 (o : ITreeOptions) (h : o.nodeHeight = none)
    (node : TreeNode) (hv : node.data.virtual = false) :
    (node.index = 0 → (TreeOptions.new o).nodeHeight node = 24)
    ∧ (node.index ≠ 0 → (TreeOptions.new o).nodeHeight node = 23) := by
  refine ⟨fun hi => ?_, fun hi => ?_⟩ <;>
    simp [TreeOptions.new, TreeOptions.nodeHeight, h, hv, hi]

/-- C10 witness: concrete nodes at index 0 and index 3 under the empty
configuration. -/
theorem nodeHeight_default22_witness :
    (TreeOptions.new emptyOptions).nodeHeight nodeAt0 = 24
    ∧ (TreeOptions.new emptyOptions).nodeHeight nodeAt3 = 23 :=
  ⟨(nodeHeight_default22 emptyOptions rfl nodeAt0 rfl).1 rfl,
   (nodeHeight_default22 emptyOptions rfl nodeAt3 rfl).2 (by decide)⟩

end NgxTree
